import Mathlib

/-!
Shallow embedding of `src/ocr.py` (tess-pdfseq): a batch OCR pipeline that
rasterizes PDFs, normalizes and enhances each page image, runs an OCR engine,
and writes one text file per page.

External collaborators (the PDF rasterizer `pdf2image`, the OCR engine
`pytesseract`, the PIL resampling filter, the filesystem and the clock) are
modelled as oracles carried in the data; the repository's own logic
(`resize_page`, `process_img`, `extract_text`, `process_pdf`, the batch loop
of `main`) is translated function by function.  Images are bitmaps with
explicit width/height and a pixel function; pixel values are natural numbers
(uint8 values are `≤ 255`, stated as hypotheses where the arithmetic needs
them).
-/

namespace OcrSeq

/-- A three-channel image (`np.array` of a PIL RGB image, or its BGR
reinterpretation after `cv2.cvtColor`).  `pix x y` is the stored channel
triple at column `x`, row `y`; only coordinates `x < width`, `y < height`
are meaningful. -/
structure Img3 where
  width : Nat
  height : Nat
  pix : Nat → Nat → Nat × Nat × Nat

/-- A single-channel (grayscale) image, `cv2.Mat` of uint8. -/
structure Img1 where
  width : Nat
  height : Nat
  pix : Nat → Nat → Nat

/-- All meaningful pixels of a three-channel image are uint8 values. -/
def Img3.valid (img : Img3) : Prop :=
  ∀ x y, x < img.width → y < img.height →
    (img.pix x y).1 ≤ 255 ∧ (img.pix x y).2.1 ≤ 255 ∧ (img.pix x y).2.2 ≤ 255

/-- `cv2.cvtColor(_, cv2.COLOR_RGB2BGR)`: swap the first and third stored
channels; dimensions unchanged. -/
def cvtColorRGB2BGR (img : Img3) : Img3 :=
  { width := img.width, height := img.height,
    pix := fun x y =>
      let p := img.pix x y
      (p.2.2, p.2.1, p.1) }

/-- `cv2.cvtColor(_, cv2.COLOR_BGR2GRAY)`: OpenCV fixed-point luma
`(B*1868 + G*9617 + R*4899 + 2^13) >> 14` (the stored order is B, G, R). -/
def cvtColorBGR2GRAY (img : Img3) : Img1 :=
  { width := img.width, height := img.height,
    pix := fun x y =>
      let p := img.pix x y
      (p.1 * 1868 + p.2.1 * 9617 + p.2.2 * 4899 + 8192) / 16384 }

/-- The composite `gray` computed by `process_img` (RGB→BGR, then
BGR→GRAY): the plain grayscale conversion of the enhancer's input. -/
def grayscale (img : Img3) : Img1 :=
  cvtColorBGR2GRAY (cvtColorRGB2BGR img)

/-- `np.ones((1,1), np.uint8)` as a structuring element: the single offset
`(0, 0)` (anchor at the center of the 1×1 kernel). -/
def kernel1x1 : List (Int × Int) := [(0, 0)]

/-- The neighborhood of `(x, y)` selected by a structuring element: the
pixel values at the in-bounds offsets (out-of-bounds offsets are ignored,
matching OpenCV's neutral border handling for erode/dilate). -/
def neigh (img : Img1) (K : List (Int × Int)) (x y : Nat) : List Nat :=
  K.filterMap (fun d =>
    let nx : Int := (x : Int) + d.1
    let ny : Int := (y : Int) + d.2
    if 0 ≤ nx ∧ nx < (img.width : Int) ∧ 0 ≤ ny ∧ ny < (img.height : Int) then
      some (img.pix nx.toNat ny.toNat)
    else none)

/-- `cv2.erode`: pointwise minimum over the structuring element (255 is the
neutral element for uint8 minimum). -/
def erode (img : Img1) (K : List (Int × Int)) : Img1 :=
  { width := img.width, height := img.height,
    pix := fun x y => (neigh img K x y).foldr min 255 }

/-- `cv2.dilate`: pointwise maximum over the structuring element. -/
def dilate (img : Img1) (K : List (Int × Int)) : Img1 :=
  { width := img.width, height := img.height,
    pix := fun x y => (neigh img K x y).foldr max 0 }

/-- The two morphology modes used by the source. -/
inductive MorphType where
  | MORPH_OPEN
  | MORPH_CLOSE

/-- `cv2.morphologyEx`: open = erode then dilate, close = dilate then
erode, with the given structuring element. -/
def morphologyEx (img : Img1) (op : MorphType) (K : List (Int × Int)) : Img1 :=
  match op with
  | .MORPH_OPEN => dilate (erode img K) K
  | .MORPH_CLOSE => erode (dilate img K) K

/-- `cv2.bitwise_or`: pixel-wise bitwise OR (dimensions those of the first
operand; the source only applies it to same-sized images). -/
def bitwise_or (a b : Img1) : Img1 :=
  { width := a.width, height := a.height,
    pix := fun x y => Nat.lor (a.pix x y) (b.pix x y) }

/-- `cv2.UMat`: the accelerated (GPU) image representation.  It wraps the
same pixel data; `.get()` downloads it back to ordinary memory. -/
structure UMat (α : Type) where
  data : α

/-- `UMat.get()`: download from the accelerated representation. -/
def UMat.get {α : Type} (u : UMat α) : α := u.data

/-- `process_img` from `src/ocr.py` (the Image Enhancer).  `use_gpu` is
`Config.use_gpu`; `cvErr` is an oracle for whether the processing library
raises `cv2.error` inside the `try` block (the morphology / bitwise-or
steps); in that case the `except` branch returns the grayscale image
(downloaded from the GPU when `use_gpu` is set). -/
def process_img (use_gpu : Bool) (cvErr : Bool) (np_img : Img3) : Img1 :=
  if use_gpu then
    let cv_img : UMat Img3 := UMat.mk (cvtColorRGB2BGR np_img)
    let gray : UMat Img1 := UMat.mk (cvtColorBGR2GRAY cv_img.data)
    let kernel_umat : UMat (List (Int × Int)) := UMat.mk kernel1x1
    if cvErr then gray.get
    else
      let morph := UMat.mk (morphologyEx
        (morphologyEx gray.data .MORPH_OPEN kernel_umat.data)
        .MORPH_CLOSE kernel_umat.data)
      let result := UMat.mk (bitwise_or gray.data morph.data)
      result.get
  else
    let cv_img := cvtColorRGB2BGR np_img
    let gray := cvtColorBGR2GRAY cv_img
    let kernel := kernel1x1
    if cvErr then gray
    else bitwise_or gray (morphologyEx
      (morphologyEx gray .MORPH_OPEN kernel) .MORPH_CLOSE kernel)

/-- `resize_page` from `src/ocr.py`: integer upscale factor
`scale = max(1, int(target_width / w))` (Python's float-division truncation
is natural-number floor division here), new size `(scale*w, scale*h)`.
PIL's `Image.LANCZOS` resampling is an external collaborator; its pixel
content is modelled as index scaling — the source's own computation is the
scale factor and the new size. -/
def resize_page (target_width : Nat) (page : Img3) : Img3 :=
  let w := page.width
  let h := page.height
  let scale := max 1 (target_width / w)
  { width := scale * w, height := scale * h,
    pix := fun x y => page.pix (x / scale) (y / scale) }

/-- `os.linesep` on the reference platform (Linux): the newline character. -/
def linesep : String := "\n"

/-- The character list of Python's `str.strip()`: drop leading and trailing
whitespace. -/
def pyStripChars (l : List Char) : List Char :=
  ((l.dropWhile Char.isWhitespace).reverse.dropWhile Char.isWhitespace).reverse

/-- Python's `str.strip()` with no arguments. -/
def pyStrip (s : String) : String := String.mk (pyStripChars s.data)

/-- Worker for `str.splitlines()`: split at line breaks (`\n`, `\r`, and
`\r\n` counted once), with no empty segment after a trailing break. -/
def pySplitlinesAux : List Char → List Char → List (List Char)
  | [], acc => if acc.isEmpty then [] else [acc.reverse]
  | '\r' :: '\n' :: rest, acc => acc.reverse :: pySplitlinesAux rest []
  | '\r' :: rest, acc => acc.reverse :: pySplitlinesAux rest []
  | '\n' :: rest, acc => acc.reverse :: pySplitlinesAux rest []
  | c :: rest, acc => pySplitlinesAux rest (c :: acc)

/-- Python's `str.splitlines()`. -/
def pySplitlines (s : String) : List String :=
  (pySplitlinesAux s.data []).map String.mk

/-- `extract_text` from `src/ocr.py` (the Text Extractor).  `pytesseract`
is the external OCR engine, modelled as an oracle from the processed image
to its raw recognized text; the function keeps the lines whose `strip()` is
non-empty (Python truthiness of the stripped line) and joins them with
`os.linesep`. -/
def extract_text (ocrEngine : Img1 → String) (img : Img1) : String :=
  let text := ocrEngine img
  let lines := (pySplitlines text).filter (fun line => !(pyStrip line).isEmpty)
  String.intercalate linesep lines

/-- The `Config` class: runtime configuration resolved once from the
environment. -/
structure RunConfig where
  langs : String
  dpi : Nat
  target_width : Nat
  max_pages : Nat
  use_gpu : Bool

/-- The source's default configuration values. -/
def defaultConfig : RunConfig :=
  { langs := "eng", dpi := 500, target_width := 1800, max_pages := 3,
    use_gpu := false }

/-- One rasterized page as the external collaborators deliver it: the
bitmap produced by `pdf2image`, the OCR engine's answer for the processed
page (an oracle for `pytesseract.image_to_string`), and whether the
processing library raises `cv2.error` inside `process_img` on this page. -/
structure PageSpec where
  img : Img3
  ocr : Img1 → String
  cvErr : Bool

/-- One input document: its base name (`pdf_path.stem`) and the outcome of
`convert_from_path` — either the full list of rasterized pages or a
rasterization error (corrupt, unreadable or unsupported PDF). -/
structure Doc where
  stem : String
  raster : Except String (List PageSpec)

/-- The deterministic output file name `out_<stem>_p<i>.txt` built in
`process_pdf`. -/
def outName (stem : String) (i : Nat) : String :=
  "out_" ++ stem ++ "_p" ++ toString i ++ ".txt"

/-- The error message of the `NameError` raised at the summarize step of
`process_pdf` when the per-page loop ran zero times: line 131 reads the
loop variable `i`, which was never bound. -/
def nameErrorMsg : String := "NameError: name i is not defined"

/-- `process_pdf` from `src/ocr.py` (the Document Processor).  `get_pages`
truncates the rasterized pages to `Config.max_pages`; each page is resized,
enhanced and OCR'd, and one file `out_<stem>_p<i>.txt` (1-based `i`) is
written per page, returned here as the ordered list of
(file name, file content) writes.  A rasterization error propagates as is;
with zero pages the summarize step raises `NameError` (the loop variable
`i` is unbound at line 131), so the result is an error and no file is
written. -/
def process_pdf (cfg : RunConfig) (doc : Doc) :
    Except String (List (String × String)) :=
  match doc.raster with
  | .error e => .error e
  | .ok avail =>
    let pages := avail.take cfg.max_pages
    let outs := pages.enum.map (fun ip =>
      let resized := resize_page cfg.target_width ip.2.img
      let processed := process_img cfg.use_gpu ip.2.cvErr resized
      let text := extract_text ip.2.ocr processed
      (outName doc.stem (ip.1 + 1), text))
    if pages.isEmpty then .error nameErrorMsg else .ok outs

/-- What one document contributes to a batch run: either its list of
written files, or a logged failure with the document name and the error
description. -/
inductive BatchEntry where
  | success : String → List (String × String) → BatchEntry
  | failure : String → String → BatchEntry
deriving DecidableEq

/-- The per-document loop of `main` from `src/ocr.py` (the Batch Driver):
each document is processed inside `try/except Exception`; an error is
logged as a failure entry with the document's name and the loop continues
with the next document. -/
def mainLoop (cfg : RunConfig) : List Doc → List BatchEntry
  | [] => []
  | d :: rest =>
    (match process_pdf cfg d with
      | .ok outs => .success d.stem outs
      | .error e => .failure d.stem e) :: mainLoop cfg rest

/-! ### Lemmas about the 1×1 structuring element -/

lemma neigh_kernel1x1 (g : Img1) (x y : Nat) (hx : x < g.width)
    (hy : y < g.height) : neigh g kernel1x1 x y = [g.pix x y] := by
  unfold neigh kernel1x1
  simp only [List.filterMap_cons, List.filterMap_nil]
  rw [if_pos]
  · simp
  · refine ⟨?_, ?_, ?_, ?_⟩ <;> omega

lemma erode_kernel1x1_pix (g : Img1) (x y : Nat) (hx : x < g.width)
    (hy : y < g.height) (hb : g.pix x y ≤ 255) :
    (erode g kernel1x1).pix x y = g.pix x y := by
  show (neigh g kernel1x1 x y).foldr min 255 = g.pix x y
  rw [neigh_kernel1x1 g x y hx hy]
  simp [Nat.min_eq_left hb]

lemma dilate_kernel1x1_pix (g : Img1) (x y : Nat) (hx : x < g.width)
    (hy : y < g.height) :
    (dilate g kernel1x1).pix x y = g.pix x y := by
  show (neigh g kernel1x1 x y).foldr max 0 = g.pix x y
  rw [neigh_kernel1x1 g x y hx hy]
  simp

/-- The grayscale conversion of a valid (uint8) image is uint8. -/
lemma grayscale_le (img : Img3) (hv : img.valid) (x y : Nat)
    (hx : x < img.width) (hy : y < img.height) :
    (grayscale img).pix x y ≤ 255 := by
  obtain ⟨h1, h2, h3⟩ := hv x y hx hy
  show ((img.pix x y).2.2 * 1868 + (img.pix x y).2.1 * 9617 +
      (img.pix x y).1 * 4899 + 8192) / 16384 ≤ 255
  have hlt : (img.pix x y).2.2 * 1868 + (img.pix x y).2.1 * 9617 +
      (img.pix x y).1 * 4899 + 8192 < 256 * 16384 := by omega
  have := (Nat.div_lt_iff_lt_mul (by norm_num : 0 < 16384)).2 hlt
  omega

/-- Open followed by close with the 1×1 structuring element leaves every
in-range pixel of a uint8 image unchanged. -/
lemma morph_chain_pix (g : Img1)
    (hb : ∀ x y, x < g.width → y < g.height → g.pix x y ≤ 255)
    (x y : Nat) (hx : x < g.width) (hy : y < g.height) :
    (morphologyEx (morphologyEx g .MORPH_OPEN kernel1x1) .MORPH_CLOSE
      kernel1x1).pix x y = g.pix x y := by
  show (erode (dilate (dilate (erode g kernel1x1) kernel1x1) kernel1x1)
      kernel1x1).pix x y = g.pix x y
  have he : (erode g kernel1x1).pix x y = g.pix x y :=
    erode_kernel1x1_pix g x y hx hy (hb x y hx hy)
  have ho : (dilate (erode g kernel1x1) kernel1x1).pix x y = g.pix x y := by
    rw [dilate_kernel1x1_pix (erode g kernel1x1) x y hx hy]; exact he
  have hd : (dilate (dilate (erode g kernel1x1) kernel1x1) kernel1x1).pix x y
      = g.pix x y := by
    rw [dilate_kernel1x1_pix (dilate (erode g kernel1x1) kernel1x1) x y hx hy]
    exact ho
  rw [erode_kernel1x1_pix
    (dilate (dilate (erode g kernel1x1) kernel1x1) kernel1x1) x y hx hy]
  · exact hd
  · rw [hd]; exact hb x y hx hy

/-! ### Claims about the Image Enhancer and the Page Normalizer -/

/-- C2: with the 1×1 structuring element, morphological open followed by
close leaves the grayscale image unchanged on every in-range pixel, and the
pixel-wise OR of the grayscale image with that morphology result equals the
grayscale image; hence on the non-error path the Image Enhancer's output
has the input's dimensions and its pixels equal the plain grayscale
conversion of the input. -/
theorem enhancer_output_is_grayscale (use_gpu : Bool) (img : Img3)
    (hv : img.valid) :
    (∀ x y, x < img.width → y < img.height →
      (morphologyEx (morphologyEx (grayscale img) .MORPH_OPEN kernel1x1)
        .MORPH_CLOSE kernel1x1).pix x y = (grayscale img).pix x y) ∧
    (process_img use_gpu false img).width = img.width ∧
    (process_img use_gpu false img).height = img.height ∧
    ∀ x y, x < img.width → y < img.height →
      (process_img use_gpu false img).pix x y = (grayscale img).pix x y := by
  have hmorph : ∀ x y, x < img.width → y < img.height →
      (morphologyEx (morphologyEx (grayscale img) .MORPH_OPEN kernel1x1)
        .MORPH_CLOSE kernel1x1).pix x y = (grayscale img).pix x y := by
    intro x y hx hy
    exact morph_chain_pix (grayscale img)
      (fun a b ha hb => grayscale_le img hv a b ha hb) x y hx hy
  refine ⟨hmorph, ?_, ?_, ?_⟩
  · cases use_gpu <;> rfl
  · cases use_gpu <;> rfl
  · intro x y hx hy
    cases use_gpu <;>
    · show Nat.lor ((grayscale img).pix x y)
        ((morphologyEx (morphologyEx (grayscale img) .MORPH_OPEN kernel1x1)
          .MORPH_CLOSE kernel1x1).pix x y) = (grayscale img).pix x y
      rw [hmorph x y hx hy]
      exact Nat.or_self _

/-- Witness for C2 at a concrete 2×2 image. -/
theorem enhancer_output_is_grayscale_witness :
    (process_img false false (Img3.mk 2 2 fun _ _ => (10, 20, 30))).pix 0 0 =
      (grayscale (Img3.mk 2 2 fun _ _ => (10, 20, 30))).pix 0 0 :=
  (enhancer_output_is_grayscale false (Img3.mk 2 2 fun _ _ => (10, 20, 30))
    (by intro x y hx hy; refine ⟨?_, ?_, ?_⟩ <;> · dsimp only; decide)).2.2.2
    0 0 (by decide) (by decide)

/-- C3: the Page Normalizer computes the integer factor
`scale = max(1, target_width / w)` and returns an image of exactly
`(scale*w, scale*h)` pixels; the same factor applies to both dimensions and
the result is never smaller than the input. -/
theorem resize_page_dims (t : Nat) (page : Img3) (ht : 0 < t)
    (hw : 0 < page.width) (hh : 0 < page.height) :
    (resize_page t page).width = max 1 (t / page.width) * page.width ∧
    (resize_page t page).height = max 1 (t / page.width) * page.height ∧
    1 ≤ max 1 (t / page.width) ∧
    page.width ≤ (resize_page t page).width ∧
    page.height ≤ (resize_page t page).height := by
  refine ⟨rfl, rfl, le_max_left _ _, ?_, ?_⟩
  · calc page.width = 1 * page.width := (one_mul _).symm
      _ ≤ max 1 (t / page.width) * page.width :=
        Nat.mul_le_mul_right _ (le_max_left _ _)
  · calc page.height = 1 * page.height := (one_mul _).symm
      _ ≤ max 1 (t / page.width) * page.height :=
        Nat.mul_le_mul_right _ (le_max_left _ _)

/-- Witness for C3: a 600×400 page with `target_width = 1800` is resized to
exactly 1800×1200. -/
theorem resize_page_dims_witness :
    (resize_page 1800 (Img3.mk 600 400 fun _ _ => (0, 0, 0))).width = 1800 ∧
    (resize_page 1800 (Img3.mk 600 400 fun _ _ => (0, 0, 0))).height = 1200 := by
  have h := resize_page_dims 1800 (Img3.mk 600 400 fun _ _ => (0, 0, 0))
    (by decide) (by decide) (by decide)
  exact ⟨h.1.trans (by decide), h.2.1.trans (by decide)⟩

/-- C5: when the processing library raises an error inside the morphology
block, the Image Enhancer returns the plain grayscale conversion of its
input (downloaded from the accelerated representation when needed) instead
of propagating the error — for every input image and either execution
path. -/
theorem enhancer_fallback_is_grayscale (use_gpu : Bool) (img : Img3) :
    process_img use_gpu true img = grayscale img := by
  cases use_gpu <;> rfl

/-- C7: the Image Enhancer returns the same pixel data with the
acceleration flag on as with it off, on both the success path and the
fallback path — the accelerated result is downloaded to ordinary memory
before being returned. -/
theorem enhancer_gpu_equals_cpu (cvErr : Bool) (img : Img3) :
    process_img true cvErr img = process_img false cvErr img := by
  cases cvErr <;> rfl

/-- C9: every stage of the Image Enhancer (channel-order conversion,
grayscale conversion, morphological open/close, pixel-wise OR) preserves
the pixel dimensions of its input, and the enhancer's output has the
dimensions of its input on both the success and the fallback path, with
and without acceleration. -/
theorem enhancer_stage_dims (img : Img3) (a b : Img1) (op : MorphType)
    (K : List (Int × Int)) (use_gpu cvErr : Bool) :
    ((cvtColorRGB2BGR img).width = img.width ∧
      (cvtColorRGB2BGR img).height = img.height) ∧
    ((cvtColorBGR2GRAY img).width = img.width ∧
      (cvtColorBGR2GRAY img).height = img.height) ∧
    ((morphologyEx a op K).width = a.width ∧
      (morphologyEx a op K).height = a.height) ∧
    ((bitwise_or a b).width = a.width ∧
      (bitwise_or a b).height = a.height) ∧
    ((process_img use_gpu cvErr img).width = img.width ∧
      (process_img use_gpu cvErr img).height = img.height) := by
  refine ⟨⟨rfl, rfl⟩, ⟨rfl, rfl⟩, ?_, ⟨rfl, rfl⟩, ?_⟩
  · cases op <;> exact ⟨rfl, rfl⟩
  · cases use_gpu <;> cases cvErr <;> exact ⟨rfl, rfl⟩

/-! ### Lemmas about Python string stripping -/

lemma pyStripChars_eq_nil_iff (l : List Char) :
    pyStripChars l = [] ↔ ∀ c ∈ l, c.isWhitespace := by
  unfold pyStripChars
  rw [List.reverse_eq_nil_iff, List.dropWhile_eq_nil_iff]
  constructor
  · intro h c hc
    rcases List.mem_append.1
        ((List.takeWhile_append_dropWhile Char.isWhitespace l) ▸ hc) with h1 | h2
    · exact List.mem_takeWhile_imp h1
    · exact h c (List.mem_reverse.2 h2)
  · intro h c hc
    exact h c ((List.dropWhile_sublist Char.isWhitespace).mem
      (List.mem_reverse.1 hc))

lemma pyStrip_eq_empty_iff (s : String) :
    pyStrip s = "" ↔ ∀ c ∈ s.data, c.isWhitespace := by
  rw [← pyStripChars_eq_nil_iff s.data]
  unfold pyStrip
  constructor
  · intro h
    simpa using congrArg String.data h
  · intro h
    rw [h]

/-- The source's line filter (`if line.strip()`) keeps exactly the lines
that are not whitespace-only. -/
lemma strip_filter_eq (lines : List String) :
    lines.filter (fun line => !(pyStrip line).isEmpty) =
      lines.filter (fun line => !line.data.all Char.isWhitespace) := by
  apply List.filter_congr
  intro l _
  congr 1
  have h1 : (pyStrip l).isEmpty = true ↔ l.data.all Char.isWhitespace = true := by
    rw [String.isEmpty_iff, List.all_eq_true]
    exact pyStrip_eq_empty_iff l
  exact Bool.coe_iff_coe.1 h1

/-- C4: the Text Extractor returns exactly the lines of the raw OCR text
that are not empty and not whitespace-only, in their original order,
joined by the platform line separator; when every line is blank (in
particular when no text at all is recognized), the result is the empty
string. -/
theorem extract_text_keeps_content_lines (ocrEngine : Img1 → String)
    (img : Img1) :
    extract_text ocrEngine img =
      String.intercalate linesep ((pySplitlines (ocrEngine img)).filter
        (fun line => !line.data.all Char.isWhitespace)) ∧
    ((∀ line ∈ pySplitlines (ocrEngine img), line.data.all Char.isWhitespace) →
      extract_text ocrEngine img = "") := by
  constructor
  · show String.intercalate linesep _ = String.intercalate linesep _
    rw [strip_filter_eq]
  · intro hall
    show String.intercalate linesep _ = ""
    rw [strip_filter_eq]
    rw [List.filter_eq_nil_iff.2 (by intro a ha; simp [hall a ha])]
    rfl

/-- Witness for C4: whitespace-only OCR output yields the empty string. -/
theorem extract_text_keeps_content_lines_witness :
    extract_text (fun _ => " \n\t\n") (Img1.mk 1 1 fun _ _ => 0) = "" :=
  (extract_text_keeps_content_lines (fun _ => " \n\t\n")
    (Img1.mk 1 1 fun _ _ => 0)).2 (by decide)

/-! ### Claims about the Document Processor and the Batch Driver -/

/-- C1: when `process_pdf` completes without error on a document whose
rasterization yielded `p` pages, it writes exactly `min(p, max_pages)`
output files, one per page, in document order, the `k`-th (0-based) named
`out_<stem>_p<k+1>.txt` — 1-based page indices `1..min(p, max_pages)`,
contiguous. -/
theorem process_pdf_output_files (cfg : RunConfig) (doc : Doc)
    (avail : List PageSpec) (outs : List (String × String))
    (hr : doc.raster = .ok avail)
    (hs : process_pdf cfg doc = .ok outs) :
    outs.length = min avail.length cfg.max_pages ∧
    ∀ k, k < outs.length →
      (outs.get? k).map Prod.fst = some (outName doc.stem (k + 1)) := by
  unfold process_pdf at hs
  rw [hr] at hs
  dsimp only at hs
  by_cases hemp : (avail.take cfg.max_pages).isEmpty
  · rw [if_pos hemp] at hs
    cases hs
  · rw [if_neg hemp] at hs
    injection hs with hs
    subst hs
    constructor
    · rw [List.length_map, List.enum_length, List.length_take]
      exact Nat.min_comm _ _
    · intro k hk
      have hk' : k < (avail.take cfg.max_pages).length := by
        rw [List.length_map, List.enum_length] at hk
        exact hk
      rw [List.get?_map, List.enum_get?]
      cases hg : (avail.take cfg.max_pages).get? k with
      | none => exact absurd (List.get?_eq_none.1 hg) (by omega)
      | some p => simp [hg, outName]

/-- A concrete two-page document for the witnesses: name `a`, OCR answers
`x` and `y`. -/
def wPage (s : String) : PageSpec :=
  ⟨Img3.mk 1 1 fun _ _ => (0, 0, 0), fun _ => s, false⟩

def wDoc : Doc := ⟨"a", .ok [wPage "x", wPage "y"]⟩

/-- A document whose rasterization fails. -/
def wBad : Doc := ⟨"bad", .error "corrupt"⟩

/-- A document whose rasterization yields zero pages. -/
def wEmpty : Doc := ⟨"empty", .ok []⟩

/-- Witness for C1: the two-page document under the default configuration
(`max_pages = 3`) produces exactly `min 2 3 = 2` files, the first named
`out_a_p1.txt`. -/
theorem process_pdf_output_files_witness :
    ([("out_a_p1.txt", "x"), ("out_a_p2.txt", "y")] :
        List (String × String)).length =
      min ([wPage "x", wPage "y"] : List PageSpec).length
        defaultConfig.max_pages ∧
    (([("out_a_p1.txt", "x"), ("out_a_p2.txt", "y")] :
        List (String × String)).get? 0).map Prod.fst =
      some (outName wDoc.stem 1) :=
  have h := process_pdf_output_files defaultConfig wDoc [wPage "x", wPage "y"]
    [("out_a_p1.txt", "x"), ("out_a_p2.txt", "y")] rfl rfl
  ⟨h.1, h.2 0 (by decide)⟩

/-- C6: the batch loop of `main` processes every document: it never
aborts, each successful document contributes its own output files
unchanged, and each failing document contributes a logged failure entry
carrying the document name and the error description — regardless of what
the other documents in the batch do. -/
theorem mainLoop_isolates_failures (cfg : RunConfig) (docs : List Doc) :
    (mainLoop cfg docs).length = docs.length ∧
    ∀ k d, docs.get? k = some d →
      ((∀ outs, process_pdf cfg d = .ok outs →
        (mainLoop cfg docs).get? k = some (.success d.stem outs)) ∧
       (∀ e, process_pdf cfg d = .error e →
        (mainLoop cfg docs).get? k = some (.failure d.stem e))) := by
  induction docs with
  | nil =>
    refine ⟨rfl, ?_⟩
    intro k d h
    cases k <;> cases h
  | cons d0 rest ih =>
    constructor
    · show (mainLoop cfg (d0 :: rest)).length = rest.length + 1
      show ((match process_pdf cfg d0 with
        | .ok outs => BatchEntry.success d0.stem outs
        | .error e => BatchEntry.failure d0.stem e) ::
          mainLoop cfg rest).length = rest.length + 1
      rw [List.length_cons, ih.1]
    · intro k d hk
      cases k with
      | zero =>
        injection hk with hk
        subst hk
        constructor
        · intro outs ho
          show ((match process_pdf cfg d0 with
            | .ok outs => BatchEntry.success d0.stem outs
            | .error e => BatchEntry.failure d0.stem e) ::
              mainLoop cfg rest).get? 0 = _
          rw [ho]
          rfl
        · intro e he
          show ((match process_pdf cfg d0 with
            | .ok outs => BatchEntry.success d0.stem outs
            | .error e => BatchEntry.failure d0.stem e) ::
              mainLoop cfg rest).get? 0 = _
          rw [he]
          rfl
      | succ n =>
        have hrest := ih.2 n d hk
        constructor
        · intro outs ho
          show (mainLoop cfg rest).get? n = _
          exact hrest.1 outs ho
        · intro e he
          show (mainLoop cfg rest).get? n = _
          exact hrest.2 e he

/-- Witness for C6: in a three-document batch whose middle document has a
rasterization error, the failing document contributes a logged failure
entry and its neighbours their normal entries. -/
theorem mainLoop_isolates_failures_witness :
    (mainLoop defaultConfig [wDoc, wBad, wDoc]).get? 1 =
      some (.failure "bad" "corrupt") ∧
    (mainLoop defaultConfig [wDoc, wBad, wDoc]).get? 2 =
      some (.success "a" [("out_a_p1.txt", "x"), ("out_a_p2.txt", "y")]) :=
  ⟨((mainLoop_isolates_failures defaultConfig [wDoc, wBad, wDoc]).2 1 wBad
      rfl).2 "corrupt" rfl,
   ((mainLoop_isolates_failures defaultConfig [wDoc, wBad, wDoc]).2 2 wDoc
      rfl).1 [("out_a_p1.txt", "x"), ("out_a_p2.txt", "y")] rfl⟩

/-- C8: a rasterization failure fails the whole document immediately: the
Document Processor returns the error before producing any output file
(there is no success value, hence no write list), and at the batch level
the document contributes a logged failure entry carrying its name and the
error description. -/
theorem raster_failure_fails_document (cfg : RunConfig) (doc : Doc)
    (e : String) (hr : doc.raster = .error e) :
    process_pdf cfg doc = .error e ∧
    mainLoop cfg [doc] = [.failure doc.stem e] := by
  have h1 : process_pdf cfg doc = .error e := by
    unfold process_pdf
    rw [hr]
  refine ⟨h1, ?_⟩
  show ((match process_pdf cfg doc with
    | .ok outs => BatchEntry.success doc.stem outs
    | .error e => BatchEntry.failure doc.stem e) :: mainLoop cfg []) = _
  rw [h1]
  rfl

/-- Witness for C8 at the concrete corrupt document. -/
theorem raster_failure_fails_document_witness :
    process_pdf defaultConfig wBad = .error "corrupt" ∧
    mainLoop defaultConfig [wBad] = [.failure "bad" "corrupt"] :=
  raster_failure_fails_document defaultConfig wBad "corrupt" rfl

/-- C10: a document whose rasterization yields zero pages to process (an
empty PDF, or `max_pages = 0`) makes `process_pdf` raise at the summarize
step — the per-page loop never binds the loop variable `i`, and line 131
reads it — so the document is reported as a batch-level failure rather
than completing successfully with zero output files. -/
theorem zero_pages_document_fails (cfg : RunConfig) (doc : Doc)
    (avail : List PageSpec) (hr : doc.raster = .ok avail)
    (h0 : min avail.length cfg.max_pages = 0) :
    process_pdf cfg doc = .error nameErrorMsg ∧
    mainLoop cfg [doc] = [.failure doc.stem nameErrorMsg] := by
  have hemp : (avail.take cfg.max_pages).isEmpty = true := by
    rw [List.isEmpty_iff_length_eq_zero, List.length_take]
    omega
  have h1 : process_pdf cfg doc = .error nameErrorMsg := by
    unfold process_pdf
    rw [hr]
    dsimp only
    rw [if_pos hemp]
  refine ⟨h1, ?_⟩
  show ((match process_pdf cfg doc with
    | .ok outs => BatchEntry.success doc.stem outs
    | .error e => BatchEntry.failure doc.stem e) :: mainLoop cfg []) = _
  rw [h1]
  rfl

/-- Witness for C10 at the concrete zero-page document. -/
theorem zero_pages_document_fails_witness :
    process_pdf defaultConfig wEmpty = .error nameErrorMsg ∧
    mainLoop defaultConfig [wEmpty] = [.failure "empty" nameErrorMsg] :=
  zero_pages_document_fails defaultConfig wEmpty [] rfl (by decide)

end OcrSeq
